import Mathlib

/-!
# Verification of the TitanGPT client library's request engine

A shallow embedding, in Lean, of the request-execution core of the
`titangpt` Python package: the retry loop of `AsyncClient._request`, the
stream decoding loop of `AsyncClient.chat_completion_stream`, the response
handling of `TitanGPTClient._handle_response`, client construction
(`TitanGPTClient.__init__`), URL building (both the sync f-string join and
the async `urljoin`), the session-lifecycle of `_ensure_session`/`close`,
and the module-level `get_client` singleton.

Pure data is embedded directly; stateful code becomes explicit state
passing; code that can raise returns `Except` with a constructor per
Python exception class.  External collaborators (the JSON codec
`json.loads`, the stdlib `urllib.parse.urljoin`) are modelled to the
extent the embedded code exercises them, with the restrictions stated in
their doc comments.
-/

namespace Titangpt

/-! ## JSON values

A JSON value as produced by `json.loads`.  Numbers are kept as a decimal
mantissa/exponent pair (`mant * 10 ^ exp10`); none of the verified code
inspects numeric values.  Objects keep their key/value pairs in source
order; lookups take the last binding for a key, matching Python's
"last duplicate key wins" dict construction. -/
inductive Json where
  | null
  | bool (b : Bool)
  | num (mant : Int) (exp10 : Int)
  | str (s : String)
  | arr (elems : List Json)
  | obj (fields : List (String × Json))

def lbrace : Char := Char.ofNat 123
def rbrace : Char := Char.ofNat 125

def isWs (c : Char) : Bool := c = ' ' || c = '\t' || c = '\n' || c = '\r'

def skipWs (cs : List Char) : List Char := cs.dropWhile isWs

def isDigitC (c : Char) : Bool := '0' ≤ c && c ≤ '9'

def digitVal (c : Char) : Nat := c.toNat - '0'.toNat

def digitsVal (ds : List Char) : Nat := ds.foldl (fun a c => a * 10 + digitVal c) 0

def hexVal (c : Char) : Option Nat :=
  let n := c.toNat
  if 48 ≤ n ∧ n ≤ 57 then some (n - 48)
  else if 97 ≤ n ∧ n ≤ 102 then some (n - 87)
  else if 65 ≤ n ∧ n ≤ 70 then some (n - 55)
  else none

/-- The two-character escape sequences `json.loads` accepts, as
(escape letter, decoded character) pairs. -/
def escPairs : List (Char × Char) :=
  [('"', '"'), ('\\', '\\'), ('/', '/'), ('b', '\x08'), ('f', '\x0C'),
   ('n', '\n'), ('r', '\r'), ('t', '\t')]

def escChar (c : Char) : Option Char :=
  (escPairs.find? (fun p => p.1 == c)).map (·.2)

/-- Body of a JSON string literal, after the opening quote: returns the
decoded characters and the remainder after the closing quote.  `\uXXXX`
escapes are decoded as single BMP code points (surrogate pairing is not
modelled; no embedded input uses it). -/
def parseStrChars : List Char → Option (List Char × List Char)
  | [] => none
  | '"' :: rest => some ([], rest)
  | '\\' :: rest =>
    match rest with
    | [] => none
    | 'u' :: h1 :: h2 :: h3 :: h4 :: rest2 =>
      match hexVal h1, hexVal h2, hexVal h3, hexVal h4 with
      | some a, some b, some c, some d =>
        (parseStrChars rest2).map
          (fun p => (Char.ofNat (((a * 16 + b) * 16 + c) * 16 + d) :: p.1, p.2))
      | _, _, _, _ => none
    | e :: rest2 =>
      match escChar e with
      | some c => (parseStrChars rest2).map (fun p => (c :: p.1, p.2))
      | none => none
  | c :: rest =>
    if c.toNat < 32 then none
    else (parseStrChars rest).map (fun p => (c :: p.1, p.2))

/-- A JSON number literal: optional sign, integer part without leading
zeros, optional fraction, optional exponent — the grammar `json.loads`
accepts (`NaN`/`Infinity` extensions are not modelled). -/
def parseNumber (cs : List Char) : Option (Json × List Char) :=
  let signed : Bool × List Char :=
    match cs with
    | '-' :: r => (true, r)
    | _ => (false, cs)
  let neg := signed.1
  let cs1 := signed.2
  let intDs := cs1.takeWhile isDigitC
  let rest1 := cs1.dropWhile isDigitC
  if intDs.isEmpty then none
  else if intDs.length > 1 && intDs.head? = some '0' then none
  else
    let finish : List Char → List Char → Option (Json × List Char) := fun fds rest2 =>
      let expPart : Option (Int × List Char) :=
        match rest2 with
        | c :: r =>
          if c = 'e' || c = 'E' then
            let esigned : Bool × List Char :=
              match r with
              | '+' :: rr => (false, rr)
              | '-' :: rr => (true, rr)
              | _ => (false, r)
            let eds := esigned.2.takeWhile isDigitC
            if eds.isEmpty then none
            else
              some (if esigned.1 then -(digitsVal eds : Int) else (digitsVal eds : Int),
                esigned.2.dropWhile isDigitC)
          else some (0, rest2)
        | [] => some (0, rest2)
      match expPart with
      | none => none
      | some (e, rest3) =>
        let m : Int := (digitsVal (intDs ++ fds) : Int)
        some (Json.num (if neg then -m else m) (e - (fds.length : Int)), rest3)
    match rest1 with
    | '.' :: r =>
      let fds := r.takeWhile isDigitC
      if fds.isEmpty then none else finish fds (r.dropWhile isDigitC)
    | _ => finish [] rest1

/-- Parsing mode: a single value, the items of an array (first item or
after a comma), or the members of an object. -/
inductive PMode where
  | value
  | arrFirst
  | arrRest
  | objFirst
  | objRest

inductive PRes where
  | one (j : Json)
  | elems (xs : List Json)
  | fields (kvs : List (String × Json))

/-- Recursive-descent JSON reader, fuel-bounded so that it is structural
(and hence evaluates inside the kernel). -/
def parseRun : Nat → PMode → List Char → Option (PRes × List Char)
  | 0, _, _ => none
  | fuel + 1, PMode.value, cs =>
    match skipWs cs with
    | [] => none
    | c :: rest =>
      if c = '"' then
        (parseStrChars rest).map (fun p => (PRes.one (Json.str (String.mk p.1)), p.2))
      else if c = '[' then
        match parseRun fuel PMode.arrFirst rest with
        | some (PRes.elems xs, r) => some (PRes.one (Json.arr xs), r)
        | _ => none
      else if c = lbrace then
        match parseRun fuel PMode.objFirst rest with
        | some (PRes.fields kvs, r) => some (PRes.one (Json.obj kvs), r)
        | _ => none
      else if c = 'n' then
        if "ull".data.isPrefixOf rest then some (PRes.one Json.null, rest.drop 3) else none
      else if c = 't' then
        if "rue".data.isPrefixOf rest then some (PRes.one (Json.bool true), rest.drop 3)
        else none
      else if c = 'f' then
        if "alse".data.isPrefixOf rest then some (PRes.one (Json.bool false), rest.drop 4)
        else none
      else
        (parseNumber (c :: rest)).map (fun p => (PRes.one p.1, p.2))
  | fuel + 1, PMode.arrFirst, cs =>
    match skipWs cs with
    | [] => none
    | c :: rest =>
      if c = ']' then some (PRes.elems [], rest)
      else
        match parseRun fuel PMode.value (c :: rest) with
        | some (PRes.one j, r) =>
          match parseRun fuel PMode.arrRest r with
          | some (PRes.elems xs, r2) => some (PRes.elems (j :: xs), r2)
          | _ => none
        | _ => none
  | fuel + 1, PMode.arrRest, cs =>
    match skipWs cs with
    | [] => none
    | c :: rest =>
      if c = ']' then some (PRes.elems [], rest)
      else if c = ',' then
        match parseRun fuel PMode.value rest with
        | some (PRes.one j, r) =>
          match parseRun fuel PMode.arrRest r with
          | some (PRes.elems xs, r2) => some (PRes.elems (j :: xs), r2)
          | _ => none
        | _ => none
      else none
  | fuel + 1, PMode.objFirst, cs =>
    match skipWs cs with
    | [] => none
    | c :: rest =>
      if c = rbrace then some (PRes.fields [], rest)
      else if c = '"' then
        match parseStrChars rest with
        | none => none
        | some (kcs, r2) =>
          match skipWs r2 with
          | ':' :: r3 =>
            match parseRun fuel PMode.value r3 with
            | some (PRes.one v, r4) =>
              match parseRun fuel PMode.objRest r4 with
              | some (PRes.fields kvs, r5) =>
                some (PRes.fields ((String.mk kcs, v) :: kvs), r5)
              | _ => none
            | _ => none
          | _ => none
      else none
  | fuel + 1, PMode.objRest, cs =>
    match skipWs cs with
    | [] => none
    | c :: rest =>
      if c = rbrace then some (PRes.fields [], rest)
      else if c = ',' then
        match skipWs rest with
        | '"' :: r1 =>
          match parseStrChars r1 with
          | none => none
          | some (kcs, r2) =>
            match skipWs r2 with
            | ':' :: r3 =>
              match parseRun fuel PMode.value r3 with
              | some (PRes.one v, r4) =>
                match parseRun fuel PMode.objRest r4 with
                | some (PRes.fields kvs, r5) =>
                  some (PRes.fields ((String.mk kcs, v) :: kvs), r5)
                | _ => none
              | _ => none
            | _ => none
        | _ => none
      else none

/-- Model of `json.loads`: parse a complete JSON document, rejecting
trailing non-whitespace ("Extra data"), returning `none` where Python
raises `json.JSONDecodeError`. -/
def parseJson (s : String) : Option Json :=
  match parseRun (2 * s.length + 8) PMode.value s.data with
  | some (PRes.one j, rest) => if (skipWs rest).isEmpty then some j else none
  | _ => none

/-! ## Exception classes

`src/titangpt/exceptions.py` defines the library's typed hierarchy.
`PyExc` is the type of raised exceptions across the embedding: one
constructor per Python builtin the clients actually raise, plus `titan`
for the library's own classes (which lets theorems state whether a raised
error belongs to the typed hierarchy). -/
inductive TitanCls where
  | titanGPTException
  | configurationError
  | authenticationError
  | authorizationError
  | apiError
  | rateLimitError
  | validationError
  | modelNotFoundError
  | promptError
  | timeoutError
  | connectionError
  | dataError
  | notImplementedError
deriving DecidableEq

/-- The superclass of each class in `exceptions.py` (`None` for the root
`TitanGPTException`, which extends Python's `Exception`). -/
def titanParent : TitanCls → Option TitanCls
  | .titanGPTException => none
  | .configurationError => some .titanGPTException
  | .authenticationError => some .titanGPTException
  | .authorizationError => some .titanGPTException
  | .apiError => some .titanGPTException
  | .rateLimitError => some .apiError
  | .validationError => some .titanGPTException
  | .modelNotFoundError => some .titanGPTException
  | .promptError => some .titanGPTException
  | .timeoutError => some .titanGPTException
  | .connectionError => some .titanGPTException
  | .dataError => some .titanGPTException
  | .notImplementedError => some .titanGPTException

inductive PyExc where
  | valueError (msg : String)
  | runtimeError (msg : String)
  | timeoutError (msg : String)
  | typeError (msg : String)
  | indexError (msg : String)
  | keyError (msg : String)
  | attributeError (msg : String)
  | httpError (msg : String)
  | jsonDecodeError (msg : String)
  | titan (cls : TitanCls) (msg : String)

/-- Whether a raised exception is one of the library's typed classes. -/
def PyExc.isTitan : PyExc → Bool
  | .titan _ _ => true
  | _ => false

/-! ## Python dict/list/str primitives used by the stream decoder -/

/-- Last binding for a key (Python dict duplicate keys: last wins). -/
def jLookup (kvs : List (String × Json)) (k : String) : Option Json :=
  (kvs.reverse.find? (fun p => p.1 == k)).map (·.2)

def isSubstr (p s : List Char) : Bool := s.tails.any (fun t => p.isPrefixOf t)

/-- Python's `key in value` for the values `json.loads` can produce:
key membership for dicts, element membership for lists, substring test
for strings, `TypeError` otherwise. -/
def pyContains (j : Json) (k : String) : Except PyExc Bool :=
  match j with
  | .obj kvs => .ok (kvs.any (fun p => p.1 == k))
  | .arr xs => .ok (xs.any (fun x => match x with | .str s => s == k | _ => false))
  | .str s => .ok (isSubstr k.data s.data)
  | _ => .error (.typeError "argument of type is not iterable")

/-- Python's `value[k]` with a string key. -/
def pySubscript (j : Json) (k : String) : Except PyExc Json :=
  match j with
  | .obj kvs =>
    match jLookup kvs k with
    | some v => .ok v
    | none => .error (.keyError k)
  | .arr _ => .error (.typeError "list indices must be integers or slices, not str")
  | .str _ => .error (.typeError "string indices must be integers")
  | _ => .error (.typeError "object is not subscriptable")

/-- Python's `value[0]`. -/
def pyIndexZero (j : Json) : Except PyExc Json :=
  match j with
  | .arr [] => .error (.indexError "list index out of range")
  | .arr (x :: _) => .ok x
  | .str s =>
    match s.data with
    | [] => .error (.indexError "string index out of range")
    | c :: _ => .ok (.str (String.mk [c]))
  | .obj _ => .error (.keyError "0")
  | _ => .error (.typeError "object is not subscriptable")

/-- Python's `value.get(k, default)` — only dicts have `.get`. -/
def pyGetDefault (j : Json) (k : String) (default : Json) : Except PyExc Json :=
  match j with
  | .obj kvs => .ok ((jLookup kvs k).getD default)
  | _ => .error (.attributeError "object has no attribute get")

/-! ## Stream Decoder (`AsyncClient.chat_completion_stream`, lines 220-232) -/

def pyWsChar (c : Char) : Bool :=
  c = ' ' || c = '\t' || c = '\n' || c = '\r' || c = Char.ofNat 11 || c = Char.ofNat 12

def pyStripChars (cs : List Char) : List Char :=
  ((cs.dropWhile pyWsChar).reverse.dropWhile pyWsChar).reverse

/-- Python's `str.strip()` (over ASCII whitespace). -/
def pyStrip (s : String) : String := String.mk (pyStripChars s.data)

/-- `decoded_line.startswith("data: ")` followed by `decoded_line[6:]`:
the payload of a data frame, or `none` for a non-frame line. -/
def framePayload (l : String) : Option String :=
  let d := pyStripChars l.data
  if "data: ".data.isPrefixOf d then some (String.mk (d.drop 6)) else none

/-- Lines 227-230: from a parsed frame, emit the first choice's
`delta.content` if present.  Any exception other than the JSON decode
error (already handled by the caller) propagates: the `try` block only
catches `json.JSONDecodeError`. -/
def extractDelta (chunk : Json) : Except PyExc (Option Json) := do
  if (← pyContains chunk "choices") then
    let choices ← pySubscript chunk "choices"
    let first ← pyIndexZero choices
    let delta ← pyGetDefault first "delta" (Json.obj [])
    if (← pyContains delta "content") then
      return some (← pySubscript delta "content")
    else
      return none
  else
    return none

inductive LineAct where
  | skip
  | emit (v : Json)
  | err (e : PyExc)

/-- The body of the `async for line in response.content` loop for one
line: non-frame lines and `[DONE]` payloads are passed over (the loop has
no `break`); a payload that fails `json.loads` is silently skipped; an
exception from the extraction aborts the stream. -/
def lineAction (l : String) : LineAct :=
  match framePayload l with
  | none => .skip
  | some d =>
    if d = "[DONE]" then .skip
    else
      match parseJson d with
      | none => .skip
      | some chunk =>
        match extractDelta chunk with
        | .error e => .err e
        | .ok none => .skip
        | .ok (some v) => .emit v

/-- The whole decoding loop over the response's lines: the chunks yielded
to the consumer, and the exception that escaped the generator, if any. -/
def streamLines : List String → List Json × Option PyExc
  | [] => ([], none)
  | l :: ls =>
    match lineAction l with
    | .skip => streamLines ls
    | .err e => ([], some e)
    | .emit v =>
      let r := streamLines ls
      (v :: r.1, r.2)

/-! ## Request Executor (`AsyncClient._request`, lines 95-129)

The environment is a function from the attempt index to that attempt's
outcome: an HTTP response (status, parsed body for the 200 path, raw text
for error messages) or an `asyncio.TimeoutError`.  The run records the
final outcome, the number of attempts the loop issued, and the
`asyncio.sleep` delays in order. -/

inductive Outcome where
  | http (status : Nat) (body : Json) (text : String)
  | timeout

inductive ReqOutcome where
  | ok (body : Json)
  | exc (e : PyExc)
  /-- The `for` loop finished without returning or raising: the Python
  function implicitly returns `None`. -/
  | noneReturn

structure RunResult where
  outcome : ReqOutcome
  attempts : Nat
  sleeps : List Nat

/-- One pass of the loop body plus the remaining iterations.  `fuel` is
the number of loop iterations left (`max_retries - attempt`); the guard
`attempt + 1 < maxR` transcribes Python's `attempt < self.max_retries - 1`
(the loop body only runs when `attempt < maxR`, where the two agree).
The sleep-and-continue branch is written out three times, as in the
source. -/
def goReq (maxR : Nat) (tmo : String) (responses : Nat → Outcome) :
    Nat → Nat → RunResult
  | 0, _ => ⟨.noneReturn, 0, []⟩
  | fuel + 1, attempt =>
    match responses attempt with
    | .http st body text =>
      if st = 200 then ⟨.ok body, 1, []⟩
      else if st = 401 then
        ⟨.exc (.valueError "Unauthorized: Invalid API key"), 1, []⟩
      else if st = 429 then
        if attempt + 1 < maxR then
          let r := goReq maxR tmo responses fuel (attempt + 1)
          ⟨r.outcome, r.attempts + 1, 2 ^ attempt :: r.sleeps⟩
        else ⟨.exc (.runtimeError "Rate limit exceeded"), 1, []⟩
      else if 500 ≤ st then
        if attempt + 1 < maxR then
          let r := goReq maxR tmo responses fuel (attempt + 1)
          ⟨r.outcome, r.attempts + 1, 2 ^ attempt :: r.sleeps⟩
        else ⟨.exc (.runtimeError ("Server error: " ++ toString st)), 1, []⟩
      else
        ⟨.exc (.runtimeError
          ("Request failed with status " ++ toString st ++ ": " ++ text)), 1, []⟩
    | .timeout =>
      if attempt + 1 < maxR then
        let r := goReq maxR tmo responses fuel (attempt + 1)
        ⟨r.outcome, r.attempts + 1, 2 ^ attempt :: r.sleeps⟩
      else ⟨.exc (.timeoutError ("Request timeout after " ++ tmo ++ "s")), 1, []⟩

/-- `AsyncClient._request`: the attempt loop `for attempt in
range(self.max_retries)` from attempt 0.  `tmo` is the display form of
`self.timeout` used in the timeout message. -/
def asyncRequest (maxR : Nat) (tmo : String) (responses : Nat → Outcome) : RunResult :=
  goReq maxR tmo responses maxR 0

/-! ## Sync response handling (`TitanGPTClient._handle_response`, lines 94-100) -/

structure HttpResponse where
  status : Nat
  /-- The raw body; `response.content` is falsy exactly when it is empty. -/
  text : String

/-- `raise_for_status` raises `requests.exceptions.HTTPError` for 4xx/5xx
statuses; the handler re-raises it with the "API Error" message.
Otherwise `response.json() if response.content else {}` (an unparseable
non-empty body makes `response.json()` raise). -/
def handle_response (r : HttpResponse) : Except PyExc Json :=
  if 400 ≤ r.status ∧ r.status < 600 then
    .error (.httpError ("API Error: " ++ toString r.status ++ " - " ++ r.text))
  else if r.text = "" then .ok (Json.obj [])
  else
    match parseJson r.text with
    | some j => .ok j
    | none => .error (.jsonDecodeError "Expecting value")

/-! ## Sync client construction (`TitanGPTClient.__init__` and
`_create_session`, lines 20-79) -/

def rstripSlash (s : String) : String :=
  String.mk ((s.data.reverse.dropWhile (fun c => c = '/')).reverse)

def lstripSlash (s : String) : String :=
  String.mk (s.data.dropWhile (fun c => c = '/'))

def sessionHeaders (apiKey : String) : List (String × String) :=
  [("Authorization", "Bearer " ++ apiKey),
   ("Content-Type", "application/json"),
   ("User-Agent", "TitanGPT-Python-Client/1.0")]

/-- The session's retry strategy and headers as `_create_session` sets
them up, together with the constructor-resolved configuration. -/
structure SyncClient where
  api_key : String
  base_url : String
  timeout : Nat
  retryTotal : Nat
  backoffFactor : Nat
  statusForcelist : List Nat
  headers : List (String × String)

/-- `TitanGPTClient.__init__`: `api_key or os.getenv("TITANGPT_API_KEY")`
(Python's `or` falls through on `None` and on the empty string), the
`if not self.api_key: raise ValueError(...)` guard, `base_url.rstrip("/")`
(an `AttributeError` if the caller explicitly passed `None`, as
`get_client` can), and the session configuration. -/
def clientInit (api_key : Option String) (envKey : Option String)
    (base_url : Option String) (timeout max_retries : Nat) :
    Except PyExc SyncClient :=
  let resolved : Option String :=
    match api_key with
    | some s => if s = "" then envKey else some s
    | none => envKey
  match resolved with
  | none =>
    .error (.valueError
      "API key is required. Set TITANGPT_API_KEY environment variable or pass api_key.")
  | some k =>
    if k = "" then
      .error (.valueError
        "API key is required. Set TITANGPT_API_KEY environment variable or pass api_key.")
    else
      match base_url with
      | none => .error (.attributeError "NoneType object has no attribute rstrip")
      | some b =>
        .ok ⟨k, rstripSlash b, timeout, max_retries, 1, [429, 500, 502, 503, 504],
          sessionHeaders k⟩

/-- `TitanGPTClient._request`, line 119: the URL join
`f"{self.base_url}/{endpoint.lstrip('/')}"` over the constructor-stripped
base. -/
def syncRequestUrl (base endpoint : String) : String :=
  rstripSlash base ++ "/" ++ lstripSlash endpoint

/-! ## Async URL building (`AsyncClient._request`, line 90) -/

def strStarts (p s : String) : Bool := p.data.isPrefixOf s.data

/-- Splits `scheme://rest` at the first `://`. -/
def splitSchemeAux : List Char → Option (List Char × List Char)
  | [] => none
  | c :: rest =>
    if c = ':' then
      match rest with
      | '/' :: '/' :: r => some ([], r)
      | _ => none
    else (splitSchemeAux rest).map (fun p => (c :: p.1, p.2))

/-- `(scheme, netloc, path)` of an absolute URL. -/
def splitUrl (u : String) : Option (String × String × String) :=
  match splitSchemeAux u.data with
  | none => none
  | some (schCs, restCs) =>
    some (String.mk schCs, String.mk (restCs.takeWhile (fun c => c ≠ '/')),
      String.mk (restCs.dropWhile (fun c => c ≠ '/')))

/-- The base path up to and including its last slash (RFC 3986 merge). -/
def upToLastSlash (path : String) : String :=
  String.mk ((path.data.reverse.dropWhile (fun c => c ≠ '/')).reverse)

def mergePath (path rel : String) : String :=
  if path = "" then "/" ++ rel else upToLastSlash path ++ rel

/-- Model of `urllib.parse.urljoin`, restricted to absolute `http(s)`
bases of the shape `scheme://netloc[/path]` and relative references that
carry no scheme, query, fragment, or dot segments — the shapes the client
can produce.  A reference starting with `/` replaces the base's entire
path; a rootless reference replaces the base path's last segment. -/
def urljoinModel (base rel : String) : String :=
  match splitUrl base with
  | none => rel
  | some (sch, net, path) =>
    if rel = "" then base
    else if strStarts "//" rel then sch ++ ":" ++ rel
    else if strStarts "/" rel then sch ++ "://" ++ net ++ rel
    else sch ++ "://" ++ net ++ mergePath path rel

/-- `AsyncClient._request`, line 90: `urljoin(self.base_url, endpoint)`
(the async constructor does not strip the base). -/
def asyncRequestUrl (base endpoint : String) : String := urljoinModel base endpoint

/-! ## Async session lifecycle (`AsyncClient._ensure_session` / `close`) -/

structure ASession where
  sid : Nat
  closed : Bool
deriving DecidableEq

/-- The `self._session` attribute plus a counter giving fresh identities
to sessions created by `aiohttp.ClientSession()`. -/
structure AsyncClientSt where
  session : Option ASession
  nextSid : Nat
deriving DecidableEq

def initAsyncSt : AsyncClientSt := ⟨none, 0⟩

/-- `_ensure_session`: `if self._session is None or self._session.closed:
self._session = aiohttp.ClientSession()`; returns the session used. -/
def ensureSession (st : AsyncClientSt) : AsyncClientSt × ASession :=
  match st.session with
  | some s =>
    if s.closed then (⟨some ⟨st.nextSid, false⟩, st.nextSid + 1⟩, ⟨st.nextSid, false⟩)
    else (st, s)
  | none => (⟨some ⟨st.nextSid, false⟩, st.nextSid + 1⟩, ⟨st.nextSid, false⟩)

/-- `close`: `if self._session and not self._session.closed: await
self._session.close()` — marks the session closed, never clears or
replaces the attribute. -/
def closeClient (st : AsyncClientSt) : AsyncClientSt :=
  match st.session with
  | some s => if s.closed then st else ⟨some ⟨s.sid, true⟩, st.nextSid⟩
  | none => st

/-! ## Module-level singleton (`titangpt/__init__.py`, `get_client`) -/

/-- `get_client(api_key=None, base_url=None)`: creates the module-level
default client on first call (passing both arguments through, including
an unreplaced `None` base URL), and afterwards returns the cached
instance unconditionally.  Returns the new module state and the client. -/
def get_client (st : Option SyncClient) (api_key base_url : Option String)
    (envKey : Option String) : Except PyExc (Option SyncClient × SyncClient) :=
  match st with
  | some c => .ok (some c, c)
  | none =>
    match clientInit api_key envKey base_url 30 3 with
    | .ok c => .ok (some c, c)
    | .error e => .error e

/-! ## The spec's Error Classifier -/

inductive SpecErrKind where
  | validation
  | authentication
  | authenticationPermission
  | modelNotFound
  | rateLimit
  | apiGeneric (status : Nat)
deriving DecidableEq

/-- The status-to-kind mapping exactly as the SPEC's section 4.3 words
state it, written down for comparison against the code's behavior. -/
def spec_classify (status : Nat) : SpecErrKind :=
  if status = 400 then .validation
  else if status = 401 then .authentication
  else if status = 403 then .authenticationPermission
  else if status = 404 then .modelNotFound
  else if status = 429 then .rateLimit
  else .apiGeneric status

/-- An outcome the loop sleeps on and retries: HTTP 429, HTTP 5xx, or a
timeout. -/
def retryableOutcome : Outcome → Bool
  | .timeout => true
  | .http st _ _ => st == 429 || decide (500 ≤ st)

/-- The error raised when the final attempt observes a given retryable
outcome. -/
def lastExcOf (o : Outcome) (tmo : String) : PyExc :=
  match o with
  | .timeout => .timeoutError ("Request timeout after " ++ tmo ++ "s")
  | .http st _ _ =>
    if st = 429 then .runtimeError "Rate limit exceeded"
    else .runtimeError ("Server error: " ++ toString st)

/-! ## Helper lemmas about the attempt loop -/

lemma sleeps_cons_shape (attempt : Nat) (l : List Nat)
    (h : l = (List.range l.length).map (fun i => 2 ^ (attempt + 1 + i))) :
    2 ^ attempt :: l = (List.range (l.length + 1)).map (fun i => 2 ^ (attempt + i)) := by
  rw [List.range_succ_eq_map, List.map_cons, List.map_map]
  refine congrArg₂ _ (by simp) ?_
  conv_lhs => rw [h]
  refine List.map_congr_left ?_
  intro i _
  simp only [Function.comp_apply]
  refine congrArg _ ?_
  omega

/-- In any run of the attempt loop, the recorded backoff sleeps are
consecutive powers of two starting at `2 ^ attempt`. -/
lemma goReq_sleeps_shape (maxR : Nat) (tmo : String) (resp : Nat → Outcome) :
    ∀ fuel attempt, (goReq maxR tmo resp fuel attempt).sleeps =
      (List.range (goReq maxR tmo resp fuel attempt).sleeps.length).map
        (fun i => 2 ^ (attempt + i)) := by
  intro fuel
  induction fuel with
  | zero => intro attempt; simp [goReq]
  | succ f ih =>
    intro attempt
    show (goReq maxR tmo resp (f + 1) attempt).sleeps = _
    simp only [goReq]
    cases h : resp attempt with
    | http st body text =>
      by_cases h200 : st = 200
      · simp [h200]
      · by_cases h401 : st = 401
        · simp [h200, h401]
        · by_cases h429 : st = 429
          · by_cases hg : attempt + 1 < maxR
            · simp only [h200, h401, h429, hg, if_true, if_false]
              exact sleeps_cons_shape attempt _ (ih (attempt + 1))
            · simp [h200, h401, h429, hg]
          · by_cases h5 : 500 ≤ st
            · by_cases hg : attempt + 1 < maxR
              · simp only [h200, h401, h429, h5, hg, if_true, if_false]
                exact sleeps_cons_shape attempt _ (ih (attempt + 1))
              · simp [h200, h401, h429, h5, hg]
            · simp [h200, h401, h429, h5]
    | timeout =>
      by_cases hg : attempt + 1 < maxR
      · simp only [hg, if_true]
        exact sleeps_cons_shape attempt _ (ih (attempt + 1))
      · simp [hg]

/-- One unfolding of the loop body when the attempt sees HTTP 429. -/
lemma goReq_step_429 (maxR : Nat) (tmo : String) (resp : Nat → Outcome)
    (f attempt : Nat) (body : Json) (text : String)
    (h : resp attempt = .http 429 body text) :
    goReq maxR tmo resp (f + 1) attempt =
      if attempt + 1 < maxR then
        ⟨(goReq maxR tmo resp f (attempt + 1)).outcome,
         (goReq maxR tmo resp f (attempt + 1)).attempts + 1,
         2 ^ attempt :: (goReq maxR tmo resp f (attempt + 1)).sleeps⟩
      else ⟨.exc (.runtimeError "Rate limit exceeded"), 1, []⟩ := by
  simp [goReq, h]

/-- One unfolding of the loop body when the attempt sees an HTTP 5xx. -/
lemma goReq_step_5xx (maxR : Nat) (tmo : String) (resp : Nat → Outcome)
    (f attempt st : Nat) (body : Json) (text : String)
    (h : resp attempt = .http st body text) (h5 : 500 ≤ st) :
    goReq maxR tmo resp (f + 1) attempt =
      if attempt + 1 < maxR then
        ⟨(goReq maxR tmo resp f (attempt + 1)).outcome,
         (goReq maxR tmo resp f (attempt + 1)).attempts + 1,
         2 ^ attempt :: (goReq maxR tmo resp f (attempt + 1)).sleeps⟩
      else ⟨.exc (.runtimeError ("Server error: " ++ toString st)), 1, []⟩ := by
  have h200 : ¬ st = 200 := by omega
  have h401 : ¬ st = 401 := by omega
  have h429 : ¬ st = 429 := by omega
  simp [goReq, h, h200, h401, h429, h5]

/-- One unfolding of the loop body when the attempt times out. -/
lemma goReq_step_timeout (maxR : Nat) (tmo : String) (resp : Nat → Outcome)
    (f attempt : Nat) (h : resp attempt = .timeout) :
    goReq maxR tmo resp (f + 1) attempt =
      if attempt + 1 < maxR then
        ⟨(goReq maxR tmo resp f (attempt + 1)).outcome,
         (goReq maxR tmo resp f (attempt + 1)).attempts + 1,
         2 ^ attempt :: (goReq maxR tmo resp f (attempt + 1)).sleeps⟩
      else ⟨.exc (.timeoutError ("Request timeout after " ++ tmo ++ "s")), 1, []⟩ := by
  simp [goReq, h]

/-- A persistently retryable outcome runs the loop to exhaustion: all
`fuel` remaining iterations are attempts, the final attempt's error
surfaces, and a sleep precedes every attempt but the first. -/
lemma goReq_const_retryable (maxR : Nat) (tmo : String) (o : Outcome)
    (hr : retryableOutcome o = true) :
    ∀ fuel attempt, 1 ≤ fuel → attempt + fuel = maxR →
      goReq maxR tmo (fun _ => o) fuel attempt =
        ⟨.exc (lastExcOf o tmo), fuel,
          (List.range (fuel - 1)).map (fun i => 2 ^ (attempt + i))⟩ := by
  intro fuel
  induction fuel with
  | zero => intro attempt h1 _; omega
  | succ f ih =>
    intro attempt _ h2
    have hcons : ∀ l : List Nat,
        l = (List.range (f - 1)).map (fun i => 2 ^ (attempt + 1 + i)) → 1 ≤ f →
        2 ^ attempt :: l = (List.range f).map (fun i => 2 ^ (attempt + i)) := by
      intro l hl hf
      have hlen : l.length = f - 1 := by rw [hl]; simp
      have := sleeps_cons_shape attempt l (by rw [hl]; simp)
      rwa [hlen, Nat.sub_add_cancel hf] at this
    have hfin : ∀ hf : 1 ≤ f,
        (⟨(goReq maxR tmo (fun _ => o) f (attempt + 1)).outcome,
          (goReq maxR tmo (fun _ => o) f (attempt + 1)).attempts + 1,
          2 ^ attempt :: (goReq maxR tmo (fun _ => o) f (attempt + 1)).sleeps⟩ : RunResult) =
        ⟨.exc (lastExcOf o tmo), f + 1,
          (List.range (f + 1 - 1)).map (fun i => 2 ^ (attempt + i))⟩ := by
      intro hf
      rw [ih (attempt + 1) hf (by omega)]
      simp only [RunResult.mk.injEq, true_and, and_true, eq_self_iff_true]
      exact hcons _ rfl hf
    cases o with
    | timeout =>
      rw [goReq_step_timeout maxR tmo _ f attempt rfl]
      by_cases hf : 1 ≤ f
      · rw [if_pos (by omega)]
        exact hfin hf
      · rw [if_neg (by omega)]
        have hf0 : f = 0 := by omega
        subst hf0
        simp [lastExcOf]
    | http st body text =>
      simp only [retryableOutcome, Bool.or_eq_true, beq_iff_eq, decide_eq_true_eq] at hr
      rcases hr with h429 | h5
      · subst h429
        rw [goReq_step_429 maxR tmo _ f attempt body text rfl]
        by_cases hf : 1 ≤ f
        · rw [if_pos (by omega)]
          exact hfin hf
        · rw [if_neg (by omega)]
          have hf0 : f = 0 := by omega
          subst hf0
          simp [lastExcOf]
      · rw [goReq_step_5xx maxR tmo _ f attempt st body text rfl h5]
        by_cases hf : 1 ≤ f
        · rw [if_pos (by omega)]
          exact hfin hf
        · rw [if_neg (by omega)]
          have hf0 : f = 0 := by omega
          subst hf0
          simp [lastExcOf, show ¬ st = 429 from by omega]

/-! ## C1 — attempt counting of the retry loop -/

/-- **C1** (code bug): the spec requires `maxRetries = N` to yield `N + 1`
attempts for a persistently retryable call and exactly one attempt when
`maxRetries = 0`.  The loop `for attempt in range(self.max_retries)`
instead makes `N` attempts — and with `max_retries = 0` it makes no
attempt at all and the function silently returns `None`, contradicting
its own documented contract ("Returns: Response data as dictionary"). -/
theorem asyncRequest_attempt_count_bug :
    asyncRequest 0 "30.0" (fun _ => Outcome.timeout) = ⟨.noneReturn, 0, []⟩ ∧
    asyncRequest 3 "30.0" (fun _ => Outcome.timeout) =
      ⟨.exc (.timeoutError "Request timeout after 30.0s"), 3, [1, 2]⟩ ∧
    asyncRequest 3 "30.0" (fun _ => Outcome.http 429 (Json.obj []) "") =
      ⟨.exc (.runtimeError "Rate limit exceeded"), 3, [1, 2]⟩ :=
  ⟨rfl, rfl, rfl⟩

/-! ## C9 — exponential backoff delays -/

/-- **C9**: in every run of the async retry loop, the delay slept before
attempt `k` (attempts 0-indexed, `k ≥ 1`) is `1 * 2 ^ (k - 1)` — the
code's backoff base is 1 — and the sequence of delays is monotonically
non-decreasing. -/
theorem retry_backoff_delays (maxR : Nat) (tmo : String) (resp : Nat → Outcome) :
    (∀ k : Nat, 1 ≤ k → k ≤ (asyncRequest maxR tmo resp).sleeps.length →
      (asyncRequest maxR tmo resp).sleeps[k - 1]? = some (1 * 2 ^ (k - 1)))
    ∧ (asyncRequest maxR tmo resp).sleeps.Sorted (· ≤ ·) := by
  have hshape := goReq_sleeps_shape maxR tmo resp maxR 0
  constructor
  · intro k h1 h2
    show (goReq maxR tmo resp maxR 0).sleeps[k - 1]? = _
    conv_lhs => rw [hshape]
    rw [List.getElem?_map]
    have hk : k - 1 < (goReq maxR tmo resp maxR 0).sleeps.length := by
      have : (asyncRequest maxR tmo resp).sleeps.length =
          (goReq maxR tmo resp maxR 0).sleeps.length := rfl
      omega
    simp [List.getElem?_range, hk]
  · show ((goReq maxR tmo resp maxR 0).sleeps).Sorted (· ≤ ·)
    rw [hshape]
    rw [List.Sorted, List.pairwise_map]
    refine (List.pairwise_lt_range _).imp ?_
    intro a b hab
    simp only [Nat.zero_add]
    exact Nat.pow_le_pow_right (by norm_num) (Nat.le_of_lt hab)

/-- Witness for C9 at a concrete run: `maxRetries = 3`, persistent
timeouts; the delay before attempt 2 is `1 * 2 ^ 1`. -/
theorem retry_backoff_delays_witness :
    (asyncRequest 3 "30.0" (fun _ => Outcome.timeout)).sleeps[1]? = some (1 * 2 ^ 1) :=
  (retry_backoff_delays 3 "30.0" (fun _ => Outcome.timeout)).1 2 (by norm_num)
    (by show 2 ≤ List.length [1, 2]; norm_num)

/-! ## C2 — error classification of terminal failures -/

/-- **C2** (counterexample): a terminal HTTP 400 — for which the spec's
classifier prescribes the typed Validation error — is raised by the code
as a bare `RuntimeError`, which is not part of the library's typed
exception hierarchy. -/
theorem error_classifier_cex :
    (asyncRequest 3 "30.0" (fun _ => Outcome.http 400 (Json.obj []) "Bad Request")).outcome
      = ReqOutcome.exc (PyExc.runtimeError "Request failed with status 400: Bad Request") ∧
    spec_classify 400 = SpecErrKind.validation ∧
    (PyExc.runtimeError "Request failed with status 400: Bad Request").isTitan = false :=
  ⟨rfl, rfl, rfl⟩

/-- **C2** (amended): for a persistently failing status `st ≠ 200` and any
`maxRetries ≥ 1`, the terminal error of `AsyncClient._request` is
401 → builtin `ValueError`; 429 → `RuntimeError "Rate limit exceeded"`
after exhausting retries; 5xx → `RuntimeError "Server error: <st>"` after
exhausting retries; every other status (including 400, 403, 404) →
`RuntimeError` carrying status and body text — and never an exception of
the library's typed hierarchy. -/
theorem async_error_mapping (maxR : Nat) (tmo : String) (st : Nat) (body : Json)
    (text : String) (h1 : 1 ≤ maxR) (h2 : ¬ st = 200) :
    (asyncRequest maxR tmo (fun _ => Outcome.http st body text)).outcome =
      ReqOutcome.exc (
        if st = 401 then PyExc.valueError "Unauthorized: Invalid API key"
        else if st = 429 then PyExc.runtimeError "Rate limit exceeded"
        else if 500 ≤ st then PyExc.runtimeError ("Server error: " ++ toString st)
        else PyExc.runtimeError
          ("Request failed with status " ++ toString st ++ ": " ++ text)) ∧
    (∀ e, (asyncRequest maxR tmo (fun _ => Outcome.http st body text)).outcome =
        ReqOutcome.exc e → e.isTitan = false) := by
  obtain ⟨m, rfl⟩ : ∃ m, maxR = m + 1 := ⟨maxR - 1, by omega⟩
  have key : (asyncRequest (m + 1) tmo (fun _ => Outcome.http st body text)).outcome =
      ReqOutcome.exc (
        if st = 401 then PyExc.valueError "Unauthorized: Invalid API key"
        else if st = 429 then PyExc.runtimeError "Rate limit exceeded"
        else if 500 ≤ st then PyExc.runtimeError ("Server error: " ++ toString st)
        else PyExc.runtimeError
          ("Request failed with status " ++ toString st ++ ": " ++ text)) := by
    by_cases h401 : st = 401
    · subst h401
      show (goReq (m + 1) tmo _ (m + 1) 0).outcome = _
      simp [goReq]
    · by_cases h429 : st = 429
      · subst h429
        show (goReq (m + 1) tmo _ (m + 1) 0).outcome = _
        rw [goReq_const_retryable (m + 1) tmo (Outcome.http 429 body text)
          (by simp [retryableOutcome]) (m + 1) 0 (by omega) (by omega)]
        simp [lastExcOf]
      · by_cases h5 : 500 ≤ st
        · show (goReq (m + 1) tmo _ (m + 1) 0).outcome = _
          rw [goReq_const_retryable (m + 1) tmo (Outcome.http st body text)
            (by simp [retryableOutcome]; omega) (m + 1) 0 (by omega) (by omega)]
          simp [lastExcOf, h401, h429, h5]
        · show (goReq (m + 1) tmo _ (m + 1) 0).outcome = _
          simp [goReq, h2, h401, h429, h5]
  refine ⟨key, ?_⟩
  intro e he
  rw [key] at he
  cases he
  split
  · rfl
  · split
    · rfl
    · split
      · rfl
      · rfl

/-- Witness for C2's amended mapping at a concrete terminal failure:
status 400, one attempt. -/
theorem async_error_mapping_witness :
    (asyncRequest 1 "30.0" (fun _ => Outcome.http 400 (Json.obj []) "Bad Request")).outcome =
      ReqOutcome.exc (PyExc.runtimeError "Request failed with status 400: Bad Request") := by
  have h := (async_error_mapping 1 "30.0" 400 (Json.obj []) "Bad Request"
    (by norm_num) (by norm_num)).1
  simpa using h

/-! ## C3 — the `[DONE]` frame -/

/-- **C3** (counterexample): a content frame positioned after `data:
[DONE]` still emits its chunk — the loop body merely skips the `[DONE]`
line (`if data != "[DONE]"` with no `break`), so the stream does not
terminate there. -/
theorem done_frame_cex :
    streamLines ["data: [DONE]",
      "data: \x7b\x22choices\x22: [\x7b\x22delta\x22: \x7b\x22content\x22: \x22X\x22\x7d\x7d]\x7d"]
      = ([Json.str "X"], none) ∧
    (Json.str "X" :: ([] : List Json)) ≠ [] :=
  ⟨rfl, List.cons_ne_nil _ _⟩

/-- **C3** (amended): a data frame whose payload is `[DONE]` emits no
chunk, but decoding does not stop there: the remaining lines are
processed exactly as if the `[DONE]` frame were absent; the stream ends
only when the underlying line sequence does. -/
theorem done_frame_skipped (l : String) (ls : List String)
    (h : framePayload l = some "[DONE]") :
    lineAction l = LineAct.skip ∧ streamLines (l :: ls) = streamLines ls := by
  have hact : lineAction l = LineAct.skip := by
    unfold lineAction
    rw [h]
    simp
  exact ⟨hact, by simp [streamLines, hact]⟩

/-- Witness for C3's amended behavior at the literal `[DONE]` line. -/
theorem done_frame_skipped_witness :
    framePayload "data: [DONE]" = some "[DONE]" ∧
    streamLines ["data: [DONE]"] = streamLines [] :=
  ⟨rfl, (done_frame_skipped "data: [DONE]" [] rfl).2⟩

/-! ## C4 — the HTTP success range -/

def ReqOutcome.isOk : ReqOutcome → Bool
  | .ok _ => true
  | _ => false

/-- **C4** (counterexample): the async client treats HTTP 204 — inside the
spec's 200-299 success range — as a terminal failure raised as a
`RuntimeError`, because only status exactly 200 takes the success path. -/
theorem success_range_cex :
    (asyncRequest 1 "30.0" (fun _ => Outcome.http 204 (Json.obj []) "No Content")).outcome =
      ReqOutcome.exc (PyExc.runtimeError "Request failed with status 204: No Content") ∧
    (asyncRequest 1 "30.0"
      (fun _ => Outcome.http 204 (Json.obj []) "No Content")).outcome.isOk = false :=
  ⟨rfl, rfl⟩

/-- **C4** (amended): the sync client's `_handle_response` accepts every
status in 200-299 (indeed everything outside 400-599), returning the
parsed body and turning an empty body into the empty object; the async
client accepts only status exactly 200, raising a generic `RuntimeError`
for 201-299. -/
theorem success_range_handling :
    (∀ r : HttpResponse, 200 ≤ r.status → r.status ≤ 299 →
      (r.text = "" → handle_response r = .ok (Json.obj [])) ∧
      (∀ j, parseJson r.text = some j → handle_response r = .ok j))
    ∧ (∀ (st : Nat) (body : Json) (text tmo : String), 201 ≤ st → st ≤ 299 →
        (asyncRequest 1 tmo (fun _ => Outcome.http st body text)).outcome =
          ReqOutcome.exc (PyExc.runtimeError
            ("Request failed with status " ++ toString st ++ ": " ++ text))) := by
  constructor
  · intro r h1 h2
    have hrange : ¬ (400 ≤ r.status ∧ r.status < 600) := by omega
    constructor
    · intro he
      rw [handle_response, if_neg hrange, if_pos he]
    · intro j hj
      by_cases ht : r.text = ""
      · rw [ht] at hj
        simp [show parseJson "" = none from rfl] at hj
      · rw [handle_response, if_neg hrange, if_neg ht, hj]
  · intro st body text tmo h1 h2
    show (goReq 1 tmo _ 1 0).outcome = _
    simp [goReq, show ¬ st = 200 from by omega, show ¬ st = 401 from by omega,
      show ¬ st = 429 from by omega, show ¬ 500 ≤ st from by omega]

/-- Witness for C4's amended behavior: a 204 with empty body succeeds as
`{}` on the sync path and raises on the async path. -/
theorem success_range_handling_witness :
    handle_response ⟨204, ""⟩ = .ok (Json.obj []) ∧
    (asyncRequest 1 "30.0" (fun _ => Outcome.http 204 Json.null "No Content")).outcome =
      ReqOutcome.exc (PyExc.runtimeError "Request failed with status 204: No Content") :=
  ⟨(success_range_handling.1 ⟨204, ""⟩ (by norm_num) (by norm_num)).1 rfl,
   by
    have h := success_range_handling.2 204 Json.null "No Content" "30.0"
      (by norm_num) (by norm_num)
    simpa using h⟩

/-! ## C5 — missing API key at construction -/

def apiKeyRequiredMsg : String :=
  "API key is required. Set TITANGPT_API_KEY environment variable or pass api_key."

/-- **C5** (counterexample): constructing the client with neither an
explicit key nor the environment variable raises the builtin
`ValueError`, not the library's typed `ConfigurationError` (which exists
in `exceptions.py` but is never raised by the client). -/
theorem config_error_cex :
    clientInit none none (some "https://api.titangpt.com/v1") 30 3 =
      .error (.valueError apiKeyRequiredMsg) ∧
    (PyExc.valueError apiKeyRequiredMsg).isTitan = false ∧
    titanParent TitanCls.configurationError = some TitanCls.titanGPTException :=
  ⟨rfl, rfl, rfl⟩

/-- **C5** (amended): with no explicit key (or an empty one, which
Python's `or` also rejects) and no environment variable, construction
fails immediately — before any network access, since the session is never
built — with the builtin `ValueError`, an exception outside the library's
typed hierarchy. -/
theorem missing_key_raises_valueerror (base_url : Option String) (t m : Nat) :
    clientInit none none base_url t m = .error (.valueError apiKeyRequiredMsg) ∧
    clientInit (some "") none base_url t m = .error (.valueError apiKeyRequiredMsg) ∧
    (PyExc.valueError apiKeyRequiredMsg).isTitan = false :=
  ⟨rfl, rfl, rfl⟩

/-- Witness for C5's amended statement at the default base URL. -/
theorem missing_key_raises_valueerror_witness :
    clientInit none none (some "https://api.titangpt.com/v1") 30 3 =
      .error (.valueError apiKeyRequiredMsg) :=
  (missing_key_raises_valueerror (some "https://api.titangpt.com/v1") 30 3).1

/-! ## C6 — per-frame leniency of the stream decoder -/

lemma any_of_jLookup (kvs : List (String × Json)) (k : String) (v : Json)
    (h : jLookup kvs k = some v) : kvs.any (fun p => p.1 == k) = true := by
  unfold jLookup at h
  cases hf : kvs.reverse.find? (fun p => p.1 == k) with
  | none => rw [hf] at h; cases h
  | some p =>
    have hp := List.find?_some hf
    have hm := List.mem_of_find?_eq_some hf
    rw [List.mem_reverse] at hm
    exact List.any_eq_true.mpr ⟨p, hm, hp⟩

/-- **C6** (counterexample): a successfully parsed frame with an *empty*
`choices` list does not "emit no chunk without raising" — the unguarded
`chunk["choices"][0]` raises an `IndexError`, which the `except
json.JSONDecodeError` clause does not catch, aborting the stream. -/
theorem stream_frame_cex :
    streamLines ["data: \x7b\x22choices\x22: []\x7d"] =
      ([], some (PyExc.indexError "list index out of range")) ∧
    some (PyExc.indexError "list index out of range") ≠ (none : Option PyExc) :=
  ⟨rfl, Option.some_ne_none _⟩

/-- **C6** (amended): a data-frame payload that fails JSON parsing is
silently skipped and does not abort the stream; a parsed frame without a
`choices` key emits nothing; a frame whose first choice's delta lacks a
`content` key emits nothing; a frame whose first choice's delta has a
`content` value emits exactly that value; but a parsed frame with an
empty `choices` list raises an uncaught `IndexError`. -/
theorem stream_frame_leniency :
    (∀ (l : String) (ls : List String) (d : String),
        framePayload l = some d → ¬ d = "[DONE]" → parseJson d = none →
        lineAction l = LineAct.skip ∧ streamLines (l :: ls) = streamLines ls)
    ∧ (∀ kvs : List (String × Json), kvs.any (fun p => p.1 == "choices") = false →
        extractDelta (Json.obj kvs) = .ok none)
    ∧ (∀ (dkvs : List (String × Json)) (rest : List Json),
        dkvs.any (fun p => p.1 == "content") = false →
        extractDelta (Json.obj [("choices",
          Json.arr (Json.obj [("delta", Json.obj dkvs)] :: rest))]) = .ok none)
    ∧ (∀ (dkvs : List (String × Json)) (rest : List Json) (v : Json),
        jLookup dkvs "content" = some v →
        extractDelta (Json.obj [("choices",
          Json.arr (Json.obj [("delta", Json.obj dkvs)] :: rest))]) = .ok (some v))
    ∧ extractDelta (Json.obj [("choices", Json.arr [])]) =
        .error (.indexError "list index out of range") := by
  refine ⟨?_, ?_, ?_, ?_, rfl⟩
  · intro l ls d h hne hp
    have hact : lineAction l = LineAct.skip := by
      unfold lineAction
      rw [h]
      simp [hne, hp]
    exact ⟨hact, by simp [streamLines, hact]⟩
  · intro kvs h
    unfold extractDelta
    simp [pyContains, h, Bind.bind, Except.bind, pure, Except.pure]
  · intro dkvs rest h
    unfold extractDelta
    simp [pyContains, pySubscript, pyIndexZero, pyGetDefault, jLookup, h,
      Bind.bind, Except.bind, pure, Except.pure, List.find?]
  · intro dkvs rest v h
    have hany := any_of_jLookup dkvs "content" v h
    simp only [jLookup] at h
    unfold extractDelta
    simp [pyContains, pySubscript, pyIndexZero, pyGetDefault, jLookup, h, hany,
      Bind.bind, Except.bind, pure, Except.pure, List.find?, Functor.map, Except.map]

/-- Witness for C6's amended behavior: a malformed line is skipped; a
frame without `choices` and a role-only frame emit nothing; a content
frame emits its delta. -/
theorem stream_frame_leniency_witness :
    lineAction "data: \x7bnot json" = LineAct.skip ∧
    extractDelta (Json.obj [("id", Json.str "1")]) = .ok none ∧
    extractDelta (Json.obj [("choices", Json.arr (Json.obj [("delta",
      Json.obj [("role", Json.str "assistant")])] :: []))]) = .ok none ∧
    extractDelta (Json.obj [("choices", Json.arr (Json.obj [("delta",
      Json.obj [("content", Json.str "Hi")])] :: []))]) = .ok (some (Json.str "Hi")) :=
  ⟨(stream_frame_leniency.1 "data: \x7bnot json" [] "\x7bnot json" rfl
      (by decide) rfl).1,
   stream_frame_leniency.2.1 [("id", Json.str "1")] rfl,
   stream_frame_leniency.2.2.1 [("role", Json.str "assistant")] [] rfl,
   stream_frame_leniency.2.2.2.1 [("content", Json.str "Hi")] [] (Json.str "Hi") rfl⟩

/-! ## C7 — closing the client -/

/-- **C7** (counterexample): after `close`, the stored session is merely
marked closed; a later operation going through `_ensure_session` creates
a *fresh, open* session — so close is not terminal for the instance. -/
theorem close_terminal_cex :
    (closeClient (ensureSession initAsyncSt).1).session = some ⟨0, true⟩ ∧
    (ensureSession (closeClient (ensureSession initAsyncSt).1)).2 = ⟨1, false⟩ ∧
    (ensureSession (closeClient (ensureSession initAsyncSt).1)).1.session =
      some ⟨1, false⟩ :=
  ⟨rfl, rfl, rfl⟩

/-- **C7** (amended): closing twice does not raise (`close` is total) and
does not reopen — `close` is idempotent and never allocates a session —
but it is not terminal: any later operation on a client whose session was
open and then closed lazily creates a fresh open session. -/
theorem close_idempotent_not_terminal :
    (∀ st : AsyncClientSt, closeClient (closeClient st) = closeClient st)
    ∧ (∀ st : AsyncClientSt, (closeClient st).session = none ↔ st.session = none)
    ∧ (∀ (st : AsyncClientSt) (s : ASession), st.session = some s → s.closed = false →
        (ensureSession (closeClient st)).2 = ⟨st.nextSid, false⟩ ∧
        (ensureSession (closeClient st)).1.session = some ⟨st.nextSid, false⟩) := by
  refine ⟨?_, ?_, ?_⟩
  · intro st
    cases hs : st.session with
    | none => simp [closeClient, hs]
    | some s =>
      by_cases hc : s.closed
      · simp [closeClient, hs, hc]
      · simp [closeClient, hs, hc]
  · intro st
    cases hs : st.session with
    | none => simp [closeClient, hs]
    | some s =>
      by_cases hc : s.closed
      · simp [closeClient, hs, hc]
      · simp [closeClient, hs, hc]
  · intro st s hs hc
    constructor
    · simp [closeClient, ensureSession, hs, hc]
    · simp [closeClient, ensureSession, hs, hc]

/-- Witness for C7's amended statement on a concrete client whose session
is open. -/
theorem close_idempotent_not_terminal_witness :
    closeClient (closeClient ⟨some ⟨0, false⟩, 1⟩) = closeClient ⟨some ⟨0, false⟩, 1⟩ ∧
    (ensureSession (closeClient ⟨some ⟨0, false⟩, 1⟩)).2 = ⟨1, false⟩ :=
  ⟨close_idempotent_not_terminal.1 ⟨some ⟨0, false⟩, 1⟩,
   (close_idempotent_not_terminal.2.2 ⟨some ⟨0, false⟩, 1⟩ ⟨0, false⟩ rfl rfl).1⟩

/-! ## C8 — joining base URL and request path -/

lemma head?_dropWhile_neg {α : Type} (p : α → Bool) (l : List α) (c : α)
    (h : (l.dropWhile p).head? = some c) : p c = false := by
  induction l with
  | nil => simp [List.dropWhile] at h
  | cons a t ih =>
    cases hpa : p a with
    | true =>
      rw [List.dropWhile_cons, if_pos hpa] at h
      exact ih h
    | false =>
      rw [List.dropWhile_cons, if_neg (by simp [hpa])] at h
      simp at h
      rw [← h]
      exact hpa

/-- **C8** (counterexample): the async client's `urljoin` does not
one-slash-join: with a base URL carrying a path segment and an
absolute-path endpoint, the base's path segment is dropped entirely,
unlike the sync client's join of the same inputs. -/
theorem url_join_cex :
    urljoinModel "https://api.titangpt.com/api" "/v1/models" =
      "https://api.titangpt.com/v1/models" ∧
    urljoinModel "https://api.titangpt.com/api" "/v1/models" ≠
      "https://api.titangpt.com/api/v1/models" ∧
    syncRequestUrl "https://api.titangpt.com/api" "/v1/models" =
      "https://api.titangpt.com/api/v1/models" :=
  ⟨rfl, by decide, rfl⟩

/-- **C8** (amended): the *sync* client joins with exactly one slash for
every base and path — the result is the trailing-slash-stripped base, one
`/`, and the leading-slash-stripped path, with no slash at either inner
boundary; the *async* client instead uses `urljoin` semantics, where an
endpoint starting with `/` yields `scheme://netloc ++ endpoint`, dropping
the base URL's path entirely. -/
theorem url_join_amended :
    (∀ base ep : String, (syncRequestUrl base ep).data =
        (rstripSlash base).data ++ '/' :: (lstripSlash ep).data ∧
      (rstripSlash base).data.getLast? ≠ some '/' ∧
      (lstripSlash ep).data.head? ≠ some '/')
    ∧ (∀ (base rel sch net path : String), splitUrl base = some (sch, net, path) →
        strStarts "/" rel = true → strStarts "//" rel = false →
        urljoinModel base rel = sch ++ "://" ++ net ++ rel) := by
  constructor
  · intro base ep
    refine ⟨?_, ?_, ?_⟩
    · simp [syncRequestUrl, String.data_append]
    · intro hcon
      have h1 : ((base.data.reverse.dropWhile (fun c => c = '/')).reverse).getLast? =
          some '/' := hcon
      rw [List.getLast?_reverse] at h1
      have h2 := head?_dropWhile_neg _ _ _ h1
      simp at h2
    · intro hcon
      have h1 : ((ep.data.dropWhile (fun c => c = '/'))).head? = some '/' := hcon
      have h2 := head?_dropWhile_neg _ _ _ h1
      simp at h2
  · intro base rel sch net path hsplit h2 h3
    have hne : ¬ rel = "" := by
      intro he
      subst he
      exact absurd h2 (by decide)
    unfold urljoinModel
    rw [hsplit]
    simp [hne, h2, h3]

/-- Witness for C8's amended statement on the async client's own default
base URL and chat-completions path. -/
theorem url_join_amended_witness :
    (syncRequestUrl "https://x.com/v1/" "/models").data =
      (rstripSlash "https://x.com/v1/").data ++ '/' :: (lstripSlash "/models").data ∧
    urljoinModel "https://api.titangpt.com" "/v1/chat/completions" =
      "https" ++ "://" ++ "api.titangpt.com" ++ "/v1/chat/completions" :=
  ⟨(url_join_amended.1 "https://x.com/v1/" "/models").1,
   url_join_amended.2 "https://api.titangpt.com" "/v1/chat/completions"
     "https" "api.titangpt.com" "" rfl rfl rfl⟩

/-! ## C10 — the module-level default client -/

/-- **C10**: once a first `get_client` call has created the default
client, every later call — whatever its `api_key` and `base_url`
arguments — returns the identical cached instance and leaves the module
state (and hence the client's configuration) unchanged. -/
theorem get_client_singleton (a b env : Option String) (st1 : Option SyncClient)
    (c : SyncClient) (h : get_client none a b env = .ok (st1, c)) :
    st1 = some c ∧
    ∀ a2 b2 env2 : Option String, get_client st1 a2 b2 env2 = .ok (st1, c) := by
  unfold get_client at h
  cases hc : clientInit a env b 30 3 with
  | error e => rw [hc] at h; cases h
  | ok c0 =>
    rw [hc] at h
    cases h
    exact ⟨rfl, fun _ _ _ => rfl⟩

def sampleClient : SyncClient :=
  ⟨"k", "https://api.titangpt.com/v1", 30, 3, 1, [429, 500, 502, 503, 504],
    sessionHeaders "k"⟩

/-- Witness for C10: after a concrete first call creates the default
client, a second call with different key and base URL returns the same
instance unchanged. -/
theorem get_client_singleton_witness :
    get_client (some sampleClient) (some "other-key")
      (some "https://elsewhere.example") none = .ok (some sampleClient, sampleClient) :=
  (get_client_singleton (some "k") (some "https://api.titangpt.com/v1") none
    (some sampleClient) sampleClient rfl).2
    (some "other-key") (some "https://elsewhere.example") none

end Titangpt
